import Mathlib

/-!
Shallow embedding of the authentication and session core of the
Lanson backend: token issuance and rotation, session lifecycle, OTP
verification, role and permission resolution, and the request guards.
Persistent tables are lists of records; the clock is an explicit
natural-number parameter; fresh random identifiers are explicit inputs.
-/

namespace Lanson

/-- Status enum of the User record. -/
inductive UserStatus where
  | PENDING_VERIFICATION
  | ACTIVE
  | INACTIVE
  | SUSPENDED
deriving Repr, DecidableEq

/-- User record of the credential store (fields the auth core reads). -/
structure User where
  id : String
  email : String
  username : Option String
  phone : Option String
  password : Option String
  status : UserStatus
  emailVerified : Bool
  phoneVerified : Bool
deriving Repr, DecidableEq

/-- RefreshToken record. -/
structure RefreshToken where
  id : String
  userId : String
  token : String
  deviceId : Option String
  deviceType : Option String
  expiresAt : Nat
  isRevoked : Bool
  replacedByToken : Option String
deriving Repr, DecidableEq

/-- UserSession record. -/
structure UserSession where
  id : String
  userId : String
  token : String
  deviceId : Option String
  deviceType : Option String
  deviceName : Option String
  ipAddress : Option String
  userAgent : Option String
  location : Option String
  expiresAt : Nat
  lastActiveAt : Nat
  isActive : Bool
deriving Repr, DecidableEq

/-- Permission record: resource+action pair with an id and composite name. -/
structure Permission where
  id : String
  name : String
  resource : String
  action : String
deriving Repr, DecidableEq

/-- Role record. -/
structure Role where
  id : String
  name : String
  isDefault : Bool
deriving Repr, DecidableEq

/-- RolePermission join record. -/
structure RolePermission where
  roleId : String
  permissionId : String
deriving Repr, DecidableEq

/-- UserRole join record. -/
structure UserRole where
  userId : String
  roleId : String
deriving Repr, DecidableEq

/-- The relational store the Prisma client exposes to the auth core. -/
structure Db where
  users : List User
  refreshTokens : List RefreshToken
  sessions : List UserSession
  roles : List Role
  permissions : List Permission
  rolePermissions : List RolePermission
  userRoles : List UserRole
deriving Repr, DecidableEq

/-- JavaScript truthiness of an optional string: undefined and the empty
string are falsy, every other string is truthy. -/
def jsTruthy : Option String → Bool
  | none => false
  | some s => !(s == "")

/-- Normalises an optional string the way JS conditionals read it: a falsy
value (undefined or empty) becomes none. -/
def jsStr : Option String → Option String
  | none => none
  | some s => if s == "" then none else some s

/-- Configuration the token service and guards read (env-backed). -/
structure TokenConfig where
  jwtSecret : String
  jwtExpiration : String
  jwtRefreshExpiration : String
  jwtRefreshRotation : Bool
  jwtIssuer : String
  jwtAudience : String
deriving Repr, DecidableEq

/-- TokenService.parseTimeToSeconds: the duration grammar is the regex
anchored digits followed by one unit character in s, m, h, d; anything
else falls back to 900 seconds. -/
def parseTimeToSeconds (time : String) : Nat :=
  let cs := time.toList
  match cs.getLast? with
  | none => 900
  | some u =>
    let ds := cs.dropLast
    if ds ≠ [] ∧ ds.all Char.isDigit then
      let value := ds.foldl (fun n c => n * 10 + (c.toNat - 48)) 0
      match u with
      | 's' => value
      | 'm' => value * 60
      | 'h' => value * 60 * 60
      | 'd' => value * 24 * 60 * 60
      | _ => 900
    else 900

/-- Claims carried by a signed access token. -/
structure JwtClaims where
  sub : String
  email : String
  username : Option String
  phone : Option String
  iss : String
  aud : String
  exp : Nat
deriving Repr, DecidableEq

/-- A signed JWT, with the signature abstracted as the key that produced
it: verification against a secret succeeds exactly when the token was
signed with that secret. -/
structure Jwt where
  claims : JwtClaims
  sig : String
deriving Repr, DecidableEq

/-- JwtService.sign under the module registration: signOptions carry the
configured expiresIn, issuer and audience, and the configured secret
signs the payload. -/
def jwtSign (cfg : TokenConfig) (now : Nat) (sub email : String)
    (username phone : Option String) : Jwt :=
  { claims :=
      { sub := sub, email := email, username := username, phone := phone,
        iss := cfg.jwtIssuer, aud := cfg.jwtAudience,
        exp := now + parseTimeToSeconds cfg.jwtExpiration },
    sig := cfg.jwtSecret }

/-- Options a jsonwebtoken verification call runs with. -/
structure VerifyOptions where
  secret : String
  ignoreExpiration : Bool
  issuer : Option String
  audience : Option String
deriving Repr, DecidableEq

/-- jsonwebtoken verify: checks the signature against the secret, rejects
an expired token unless ignoreExpiration, and checks issuer and audience
only when the respective option is supplied. -/
def jwtVerify (opts : VerifyOptions) (now : Nat) (t : Jwt) : Option JwtClaims :=
  if !(t.sig == opts.secret) then none
  else if !opts.ignoreExpiration && decide (t.claims.exp ≤ now) then none
  else
    match opts.issuer with
    | some iss =>
      if !(t.claims.iss == iss) then none
      else
        match opts.audience with
        | some aud => if !(t.claims.aud == aud) then none else some t.claims
        | none => some t.claims
    | none =>
      match opts.audience with
      | some aud => if !(t.claims.aud == aud) then none else some t.claims
      | none => some t.claims

/-- Response of generateTokens and refreshAccessToken. -/
structure TokenResponse where
  accessToken : Jwt
  refreshToken : String
  expiresIn : Nat
deriving Repr, DecidableEq

/-- TokenService.findRefreshTokenByToken: findUnique on the token column. -/
def findRefreshTokenByToken (db : Db) (token : String) : Option RefreshToken :=
  db.refreshTokens.find? (fun t => t.token == token)

/-- The record TokenService.createRefreshToken inserts; the fresh random
id and token value are explicit inputs. -/
def createRefreshTokenRecord (cfg : TokenConfig) (now : Nat)
    (freshId freshTok : String) (userId : String)
    (deviceId deviceType : Option String) : RefreshToken :=
  { id := freshId, userId := userId, token := freshTok,
    deviceId := deviceId, deviceType := deviceType,
    expiresAt := now + parseTimeToSeconds cfg.jwtRefreshExpiration,
    isRevoked := false, replacedByToken := none }

/-- TokenService.rotateRefreshToken: looks the old token up by id; if it
exists and is not revoked, inserts a fresh token for the same user and
device, then marks the old record revoked with replacedByToken set to the
id of the new record. -/
def rotateRefreshToken (cfg : TokenConfig) (now : Nat)
    (freshId freshTok : String) (db : Db) (id : String) :
    Option RefreshToken × Db :=
  match db.refreshTokens.find? (fun t => t.id == id) with
  | none => (none, db)
  | some oldToken =>
    if oldToken.isRevoked then (none, db)
    else
      let newRecord := createRefreshTokenRecord cfg now freshId freshTok
        oldToken.userId oldToken.deviceId oldToken.deviceType
      let inserted := db.refreshTokens ++ [newRecord]
      let updated := inserted.map (fun t =>
        if t.id == id then
          { t with isRevoked := true, replacedByToken := some newRecord.id }
        else t)
      (some newRecord, { db with refreshTokens := updated })

/-- TokenService.refreshAccessToken: null when the token is unknown,
revoked or expired, or its user is gone; otherwise signs a new access
token, rotates when rotation is configured, and returns the response
whose refreshToken field is the token column of the record that was
presented. -/
def refreshAccessToken (cfg : TokenConfig) (now : Nat)
    (freshId freshTok : String) (db : Db) (refreshToken : String) :
    Option TokenResponse × Db :=
  match findRefreshTokenByToken db refreshToken with
  | none => (none, db)
  | some token =>
    if token.isRevoked || decide (token.expiresAt < now) then (none, db)
    else
      match db.users.find? (fun u => u.id == token.userId) with
      | none => (none, db)
      | some user =>
        let accessToken := jwtSign cfg now user.id user.email user.username user.phone
        let db1 :=
          if cfg.jwtRefreshRotation then
            (rotateRefreshToken cfg now freshId freshTok db token.id).2
          else db
        (some { accessToken := accessToken, refreshToken := token.token,
                expiresIn := parseTimeToSeconds cfg.jwtExpiration }, db1)

/-- TokenService.revokeAllUserRefreshTokens: updateMany over the non-revoked tokens of the user; when a truthy exceptTokenId is supplied, records
whose id equals it are spared. Returns the affected count. -/
def revokeAllUserRefreshTokens (db : Db) (userId : String)
    (exceptTokenId : Option String) : Nat × Db :=
  let hits := fun (t : RefreshToken) =>
    t.userId == userId && !t.isRevoked &&
      (match jsStr exceptTokenId with
       | some e => !(t.id == e)
       | none => true)
  ((db.refreshTokens.filter hits).length,
   { db with refreshTokens := db.refreshTokens.map (fun t =>
       if hits t then { t with isRevoked := true } else t) })

/-- TokenService.cleanupExpiredRefreshTokens: updateMany marking the
non-revoked tokens whose expiresAt is in the past as revoked; returns the
affected count. -/
def cleanupExpiredRefreshTokens (now : Nat) (db : Db) : Nat × Db :=
  let hits := fun (t : RefreshToken) => !t.isRevoked && decide (t.expiresAt < now)
  ((db.refreshTokens.filter hits).length,
   { db with refreshTokens := db.refreshTokens.map (fun t =>
       if hits t then { t with isRevoked := true } else t) })

/-- SessionService.findSessionByToken: findUnique on the token column. -/
def findSessionByToken (db : Db) (token : String) : Option UserSession :=
  db.sessions.find? (fun s => s.token == token)

/-- SessionService.deactivateAllUserSessions: updateMany over the active sessions of the user; when a truthy exceptSessionId is supplied, the session
with that id is spared. Returns the affected count. -/
def deactivateAllUserSessions (db : Db) (userId : String)
    (exceptSessionId : Option String) : Nat × Db :=
  let hits := fun (s : UserSession) =>
    s.userId == userId && s.isActive &&
      (match jsStr exceptSessionId with
       | some e => !(s.id == e)
       | none => true)
  ((db.sessions.filter hits).length,
   { db with sessions := db.sessions.map (fun s =>
       if hits s then { s with isActive := false } else s) })

/-- SessionService.cleanupExpiredSessions: updateMany setting
isActive to false on active sessions whose expiresAt is in the past;
returns the affected count. -/
def cleanupExpiredSessions (now : Nat) (db : Db) : Nat × Db :=
  let hits := fun (s : UserSession) => s.isActive && decide (s.expiresAt < now)
  ((db.sessions.filter hits).length,
   { db with sessions := db.sessions.map (fun s =>
       if hits s then { s with isActive := false } else s) })

/-- UserService.verifyEmail: a single update setting emailVerified to
true and status to ACTIVE, with no precondition on the prior status. -/
def verifyEmail (u : User) : User :=
  { u with emailVerified := true, status := UserStatus.ACTIVE }

/-- UserService.verifyPhone: a single update setting phoneVerified to
true; the status column is not touched. -/
def verifyPhone (u : User) : User :=
  { u with phoneVerified := true }

/-- Verification types handled by the verification engine. -/
inductive VerificationType where
  | EMAIL
  | PHONE
  | PASSWORD_RESET
deriving Repr, DecidableEq

/-- Cached OTP entry stored under the cache key of a
(userId, verificationType) pair. -/
structure OtpEntry where
  otp : String
  attempts : Nat
deriving Repr, DecidableEq

/-- Result shape of the verification service calls. -/
structure VerifyResult where
  success : Bool
  message : String
deriving Repr, DecidableEq

/-- VerificationService.updateVerificationStatus: dispatches to the user
service on EMAIL and PHONE; PASSWORD_RESET leaves the user untouched. -/
def updateVerificationStatus (u : User) (vt : VerificationType) : User :=
  match vt with
  | VerificationType.EMAIL => verifyEmail u
  | VerificationType.PHONE => verifyPhone u
  | VerificationType.PASSWORD_RESET => u

/-- VerificationService.verifyOtp for an existing user, acting on the
cache slot of the (userId, verificationType) key and on the user record.
Missing entry fails; an entry at or over maxAttempts is deleted and fails;
otherwise the attempt counter is rewritten (incremented) before the code
comparison; a mismatch fails leaving the incremented entry; a match
updates the user, deletes the entry and succeeds. -/
def verifyOtp (maxAttempts : Nat) (vt : VerificationType)
    (entry : Option OtpEntry) (u : User) (submitted : String) :
    VerifyResult × Option OtpEntry × User :=
  match entry with
  | none =>
    ({ success := false, message := "Verification code expired or not found" },
     none, u)
  | some e =>
    if maxAttempts ≤ e.attempts then
      ({ success := false,
         message := "Too many failed attempts. Please request a new code" },
       none, u)
    else
      let entry1 := some { e with attempts := e.attempts + 1 }
      if !(e.otp == submitted) then
        ({ success := false, message := "Invalid verification code" }, entry1, u)
      else
        ({ success := true, message := "Verification successful" },
         none, updateVerificationStatus u vt)

/-- UserRole records of one user (prisma userRole.findMany where userId). -/
def userRolesOf (db : Db) (userId : String) : List UserRole :=
  db.userRoles.filter (fun ur => ur.userId == userId)

/-- The permissions a role carries through the RolePermission join, as
the prisma include nesting returns them. -/
def rolePermissionsOf (db : Db) (roleId : String) : List Permission :=
  (db.rolePermissions.filter (fun rp => rp.roleId == roleId)).filterMap
    (fun rp => db.permissions.find? (fun p => p.id == rp.permissionId))

/-- Role names of one user, through the UserRole include. -/
def userRoleNames (db : Db) (userId : String) : List String :=
  ((userRolesOf db userId).filterMap
    (fun ur => db.roles.find? (fun r => r.id == ur.roleId))).map Role.name

/-- Flattened permissions across all roles of a user, in the order the
nested forEach of the source visits them (duplicates included). -/
def collectedPermissions (db : Db) (userId : String) : List Permission :=
  ((userRolesOf db userId).filterMap
    (fun ur => db.roles.find? (fun r => r.id == ur.roleId))).flatMap
    (fun r => rolePermissionsOf db r.id)

/-- JS Map.set on an association list: an existing key has its value
replaced in place, a new key is appended. -/
def jsMapSet (m : List (String × Permission)) (k : String) (v : Permission) :
    List (String × Permission) :=
  if m.any (fun kv => kv.1 == k) then
    m.map (fun kv => if kv.1 == k then (k, v) else kv)
  else m ++ [(k, v)]

/-- RoleService.getUserPermissions: walks every permission of every role
of the user, keying a JS Map by permission id, and returns the values. -/
def getUserPermissions (db : Db) (userId : String) : List Permission :=
  ((collectedPermissions db userId).foldl
    (fun m p => jsMapSet m p.id p) []).map Prod.snd

/-- Outcome of a guard: allow, or the 403 raised / returned-false path. -/
inductive GuardDecision where
  | allow
  | forbidden
deriving Repr, DecidableEq

/-- RolesGuard.canActivate: no declared roles allows; a missing or falsy
user claim raises forbidden; otherwise the request passes when SOME of
the role names of the user is among the required ones. -/
def rolesGuardCanActivate (db : Db) (requiredRoles : List String)
    (userSub : Option String) : GuardDecision :=
  if requiredRoles.isEmpty then GuardDecision.allow
  else
    match jsStr userSub with
    | none => GuardDecision.forbidden
    | some sub =>
      if (userRoleNames db sub).any (fun n => requiredRoles.contains n) then
        GuardDecision.allow
      else GuardDecision.forbidden

/-- A declared (resource, action) requirement. -/
structure RequiredPermission where
  resource : String
  action : String
deriving Repr, DecidableEq

/-- PermissionsGuard.canActivate: no declared permissions allows; a
missing or falsy user claim raises forbidden; otherwise the request
passes only when EVERY declared pair is matched by some permission from the roles
of the user. -/
def permissionsGuardCanActivate (db : Db) (req : List RequiredPermission)
    (userSub : Option String) : GuardDecision :=
  if req.isEmpty then GuardDecision.allow
  else
    match jsStr userSub with
    | none => GuardDecision.forbidden
    | some sub =>
      let userPermissions := collectedPermissions db sub
      if req.all (fun rq => userPermissions.any (fun p =>
          p.resource == rq.resource && p.action == rq.action)) then
        GuardDecision.allow
      else GuardDecision.forbidden

/-- Outcome of the authentication gate. -/
inductive AuthDecision where
  | allow
  | unauthorized
deriving Repr, DecidableEq

/-- The verify options the JwtStrategy constructor registers: the
configured secret and ignoreExpiration false; no issuer or audience
option is passed. -/
def jwtStrategyOptions (cfg : TokenConfig) : VerifyOptions :=
  { secret := cfg.jwtSecret, ignoreExpiration := false,
    issuer := none, audience := none }

/-- The options of the manual fallback verifyAsync call in
JwtAuthGuard.canActivate: only the configured secret; the module
registration carries no verifyOptions, so no issuer or audience check. -/
def jwtGuardFallbackOptions (cfg : TokenConfig) : VerifyOptions :=
  { secret := cfg.jwtSecret, ignoreExpiration := false,
    issuer := none, audience := none }

/-- JwtAuthGuard.canActivate: a public operation bypasses everything;
otherwise the passport strategy runs first and, on failure, the guard
falls back to a manual verification; a missing bearer token or a token
failing both verifications is rejected as unauthorized. -/
def jwtAuthGuardCanActivate (cfg : TokenConfig) (now : Nat)
    (isPublic : Bool) (bearer : Option Jwt) : AuthDecision :=
  if isPublic then AuthDecision.allow
  else
    match bearer with
    | none => AuthDecision.unauthorized
    | some t =>
      match jwtVerify (jwtStrategyOptions cfg) now t with
      | some _ => AuthDecision.allow
      | none =>
        match jwtVerify (jwtGuardFallbackOptions cfg) now t with
        | some _ => AuthDecision.allow
        | none => AuthDecision.unauthorized

/-- Outcome of AuthService.login, keeping the thrown exception kind and
its user-facing message. -/
inductive LoginResult where
  | badRequest (message : String)
  | unauthorized (message : String)
  | success (userId : String)
deriving Repr, DecidableEq

/-- UserService.findByEmail, restricted to the lookup. -/
def findByEmail (db : Db) (email : String) : Option User :=
  db.users.find? (fun u => u.email == email)

/-- UserService.findByPhone, restricted to the lookup. -/
def findByPhone (db : Db) (phone : String) : Option User :=
  db.users.find? (fun u => u.phone == some phone)

/-- The user lookup of AuthService.login: email wins when truthy, else
phone when truthy, else no lookup runs. -/
def loginLookup (db : Db) (email phone : Option String) : Option User :=
  match jsStr email with
  | some e => findByEmail db e
  | none =>
    match jsStr phone with
    | some p => findByPhone db p
    | none => none

/-- AuthService.login up to the rejection decision: missing email and
phone is a bad request; unknown user is Invalid credentials; a status
outside ACTIVE and PENDING_VERIFICATION is Account is not active; a falsy
password hash or a bcrypt mismatch is Invalid credentials; all checks
passing is success. The bcrypt comparison is an explicit oracle. -/
def login (bcryptCompare : String → String → Bool) (db : Db)
    (email phone : Option String) (password : String) : LoginResult :=
  if !(jsTruthy email) && !(jsTruthy phone) then
    LoginResult.badRequest "Either email or phone number is required"
  else
    match loginLookup db email phone with
    | none => LoginResult.unauthorized "Invalid credentials"
    | some user =>
      if !(user.status == UserStatus.ACTIVE)
          && !(user.status == UserStatus.PENDING_VERIFICATION) then
        LoginResult.unauthorized "Account is not active"
      else if !(jsTruthy user.password) then
        LoginResult.unauthorized "Invalid credentials"
      else if !(bcryptCompare password (user.password.getD "")) then
        LoginResult.unauthorized "Invalid credentials"
      else LoginResult.success user.id

/-- AuthService.logoutAll: resolves the current session by looking the
supplied refresh token string up among session tokens, then calls
revokeAllUserRefreshTokens passing that same raw token string in the
exceptTokenId position, then deactivates all sessions except the
resolved one. -/
def logoutAll (db : Db) (userId : String) (currentToken : Option String) :
    Bool × Db :=
  let currentSessionId : Option String :=
    match jsStr currentToken with
    | some ct => (findSessionByToken db ct).map UserSession.id
    | none => none
  let db1 := (revokeAllUserRefreshTokens db userId currentToken).2
  let db2 := (deactivateAllUserSessions db1 userId currentSessionId).2
  (true, db2)

/-! ### Concrete fixtures -/

/-- Configuration with rotation enabled and the default issuer and
audience of the module registration. -/
def cfg0 : TokenConfig :=
  { jwtSecret := "secret", jwtExpiration := "15m", jwtRefreshExpiration := "7d",
    jwtRefreshRotation := true, jwtIssuer := "landson-api",
    jwtAudience := "landson-client" }

/-- An empty store. -/
def emptyDb : Db :=
  { users := [], refreshTokens := [], sessions := [], roles := [],
    permissions := [], rolePermissions := [], userRoles := [] }

/-- An active user. -/
def user1 : User :=
  { id := "u1", email := "a@x.com", username := none,
    phone := some "+911234567890", password := some "hash1",
    status := UserStatus.ACTIVE, emailVerified := true, phoneVerified := true }

/-- A live refresh token of user1. -/
def tok1 : RefreshToken :=
  { id := "t1", userId := "u1", token := "r1", deviceId := none,
    deviceType := none, expiresAt := 1000, isRevoked := false,
    replacedByToken := none }

/-- Store for the rotation scenario: one user, one live token. -/
def dbC1 : Db := { emptyDb with users := [user1], refreshTokens := [tok1] }

/-- A live refresh token of user1 with the given id and token value. -/
def mkTok (id tok : String) : RefreshToken :=
  { id := id, userId := "u1", token := tok, deviceId := none,
    deviceType := none, expiresAt := 1000, isRevoked := false,
    replacedByToken := none }

/-- An active session of user1 with the given id and token value. -/
def mkSess (id tok : String) : UserSession :=
  { id := id, userId := "u1", token := tok, deviceId := none,
    deviceType := none, deviceName := none, ipAddress := none,
    userAgent := none, location := none, expiresAt := 1000,
    lastActiveAt := 0, isActive := true }

/-- Store for the logout-all scenario: three live refresh tokens and
three active sessions of user1; the session s2 carries the token value
r2, tying it to the refresh token with id i2 and value r2. -/
def dbC2 : Db :=
  { emptyDb with
    users := [user1],
    refreshTokens := [mkTok "i1" "r1", mkTok "i2" "r2", mkTok "i3" "r3"],
    sessions := [mkSess "s1" "h1", mkSess "s2" "r2", mkSess "s3" "h3"] }

/-! ### C1 -/

/-- C1: claimed — on a successful refresh with rotation enabled, the
presented token is revoked, exactly one new non-revoked chained token
exists, the refreshToken field of the response is the NEW token, and
re-presenting the old token fails. The code revokes the old record,
chains exactly one fresh non-revoked record, and fails a re-presentation,
but the refreshToken field of the response carries the PRESENTED (now
revoked) token value, not the new one: the result of rotateRefreshToken
is discarded
and token.token is returned. -/
theorem refresh_rotation_returns_presented_token :
    ((refreshAccessToken cfg0 100 "t2" "r2" dbC1 "r1").1.map
        TokenResponse.refreshToken = some "r1")
    ∧ ((findRefreshTokenByToken
          (refreshAccessToken cfg0 100 "t2" "r2" dbC1 "r1").2 "r1").map
        RefreshToken.isRevoked = some true)
    ∧ ((findRefreshTokenByToken
          (refreshAccessToken cfg0 100 "t2" "r2" dbC1 "r1").2 "r1").map
        RefreshToken.replacedByToken = some (some "t2"))
    ∧ (((refreshAccessToken cfg0 100 "t2" "r2" dbC1 "r1").2.refreshTokens.filter
          (fun t => !t.isRevoked)).map RefreshToken.token = ["r2"])
    ∧ ((refreshAccessToken cfg0 100 "t3" "r3"
          (refreshAccessToken cfg0 100 "t2" "r2" dbC1 "r1").2 "r1").1 = none) := by
  decide

/-! ### C2 -/

/-- C2: claimed — logoutAll keeps the current session active and its
refresh token non-revoked while revoking everything else. The code does
keep the current session active and deactivates the other two, but it
passes the raw refresh token string into the exceptTokenId position of
revokeAllUserRefreshTokens, whose filter compares record ids; no record
id equals the token value, so ALL three refresh tokens of the user,
including the presented current one, come out revoked. -/
theorem logoutAll_revokes_current_refresh_token :
    (((logoutAll dbC2 "u1" (some "r2")).2.sessions.find?
        (fun s => s.id == "s2")).map UserSession.isActive = some true)
    ∧ (((logoutAll dbC2 "u1" (some "r2")).2.sessions.find?
        (fun s => s.id == "s1")).map UserSession.isActive = some false)
    ∧ (((logoutAll dbC2 "u1" (some "r2")).2.sessions.find?
        (fun s => s.id == "s3")).map UserSession.isActive = some false)
    ∧ ((logoutAll dbC2 "u1" (some "r2")).2.refreshTokens.map
        RefreshToken.isRevoked = [true, true, true])
    ∧ ((findRefreshTokenByToken (logoutAll dbC2 "u1" (some "r2")).2 "r2").map
        RefreshToken.isRevoked = some true) := by
  decide

/-! ### C3 -/

/-- Store for the guard scenarios: user u1 holds only the admin role;
admin carries permission p1 (user:create), auditor carries p2. -/
def dbC3 : Db :=
  { emptyDb with
    users := [user1],
    roles := [{ id := "ra", name := "admin", isDefault := false },
              { id := "rb", name := "auditor", isDefault := false }],
    permissions := [{ id := "p1", name := "user:create", resource := "user",
                      action := "create" },
                    { id := "p2", name := "audit:read", resource := "audit",
                      action := "read" }],
    rolePermissions := [{ roleId := "ra", permissionId := "p1" },
                        { roleId := "rb", permissionId := "p2" }],
    userRoles := [{ userId := "u1", roleId := "ra" }] }

/-- C3 counterexample: the claim requires a user holding only some of
two declared roles to be rejected, but RolesGuard grants access as soon
as ONE declared role is held: u1 holds admin but not auditor, two roles
are declared, and the guard allows. -/
theorem rolesGuard_any_of_counterexample :
    rolesGuardCanActivate dbC3 ["admin", "auditor"] (some "u1")
      = GuardDecision.allow
    ∧ ¬ ("auditor" ∈ userRoleNames dbC3 "u1") := by
  decide

/-! ### C4 -/

/-- A token signed with the configured secret and unexpired at instant
100, but whose issuer and audience claims match nothing configured. -/
def foreignJwt : Jwt :=
  { claims := { sub := "u1", email := "a@x.com", username := none,
                phone := none, iss := "someone-else", aud := "someone-else",
                exp := 1000 },
    sig := "secret" }

/-- C4 counterexample: the claim requires the gate to accept only when
the issuer and audience claims match the configuration, but neither the
passport strategy registration nor the manual fallback passes issuer or
audience verify options: a correctly signed, unexpired token with wrong
issuer and audience is accepted. -/
theorem authGuard_ignores_issuer_audience :
    jwtAuthGuardCanActivate cfg0 100 false (some foreignJwt)
      = AuthDecision.allow
    ∧ ¬ (foreignJwt.claims.iss = cfg0.jwtIssuer)
    ∧ ¬ (foreignJwt.claims.aud = cfg0.jwtAudience) := by
  decide

/-! ### C5 -/

/-- A suspended user holding a password hash. -/
def susUser : User :=
  { id := "u2", email := "s@x.com", username := none, phone := none,
    password := some "hash2", status := UserStatus.SUSPENDED,
    emailVerified := true, phoneVerified := true }

/-- Store for the login-oracle scenario: only the suspended user. -/
def dbC5 : Db := { emptyDb with users := [susUser] }

/-- A concrete bcrypt oracle for fixtures: a hash matches exactly the
plaintext it spells. -/
def bcEq : String → String → Bool := fun plain hash => plain == hash

/-- C5 counterexample: the claim requires a wrong-password login against
a suspended account to be indistinguishable from one against a
non-existent account, but the status check runs before password
validation: the suspended account answers Account is not active while
the ghost account answers Invalid credentials. -/
theorem login_reveals_suspended_account :
    login bcEq dbC5 (some "s@x.com") none "wrong"
      = LoginResult.unauthorized "Account is not active"
    ∧ login bcEq dbC5 (some "ghost@x.com") none "wrong"
      = LoginResult.unauthorized "Invalid credentials"
    ∧ ¬ ((("Account is not active") : String) = "Invalid credentials") := by
  decide

/-! ### C7 -/

/-- A pending-verification user, phone not yet verified. -/
def pendUser : User :=
  { id := "u3", email := "p@x.com", username := none,
    phone := some "+911111111111", password := some "hash3",
    status := UserStatus.PENDING_VERIFICATION, emailVerified := false,
    phoneVerified := false }

/-- C7 counterexample: the claim requires a successful phone OTP
verification of a pending-verification user to promote the status to
active; the verifyPhone update of the code touches only phoneVerified, so the
verification succeeds, the entry is deleted, phoneVerified becomes true,
and the status stays PENDING_VERIFICATION. -/
theorem phone_verification_leaves_status_pending :
    ((verifyOtp 3 VerificationType.PHONE (some { otp := "123456", attempts := 0 })
        pendUser "123456").1.success = true)
    ∧ ((verifyOtp 3 VerificationType.PHONE (some { otp := "123456", attempts := 0 })
        pendUser "123456").2.1 = none)
    ∧ ((verifyOtp 3 VerificationType.PHONE (some { otp := "123456", attempts := 0 })
        pendUser "123456").2.2.phoneVerified = true)
    ∧ ¬ ((verifyOtp 3 VerificationType.PHONE (some { otp := "123456", attempts := 0 })
        pendUser "123456").2.2.status = UserStatus.ACTIVE) := by
  decide

/-! ### C6 -/

/-- C6: with maxAttempts 3 and a fresh entry, each of the first three
wrong submissions rewrites the entry with the attempt counter
incremented (before the comparison) and fails with the invalid-code
message; the fourth call, even with the correct code, fails with the
too-many-attempts message and deletes the entry. -/
theorem otp_three_wrong_then_locked (u : User) (c w : String) (h : ¬ c = w) :
    (verifyOtp 3 VerificationType.PHONE (some { otp := c, attempts := 0 }) u w
      = ({ success := false, message := "Invalid verification code" },
         some { otp := c, attempts := 1 }, u))
    ∧ (verifyOtp 3 VerificationType.PHONE (some { otp := c, attempts := 1 }) u w
      = ({ success := false, message := "Invalid verification code" },
         some { otp := c, attempts := 2 }, u))
    ∧ (verifyOtp 3 VerificationType.PHONE (some { otp := c, attempts := 2 }) u w
      = ({ success := false, message := "Invalid verification code" },
         some { otp := c, attempts := 3 }, u))
    ∧ (verifyOtp 3 VerificationType.PHONE (some { otp := c, attempts := 3 }) u c
      = ({ success := false,
           message := "Too many failed attempts. Please request a new code" },
         none, u)) := by
  have hb : (c == w) = false := by
    simp only [beq_eq_false_iff_ne, ne_eq]
    exact h
  refine ⟨?_, ?_, ?_, ?_⟩ <;> simp [verifyOtp, hb]

/-- C6 witness: the lockout step at a concrete code. -/
theorem otp_three_wrong_then_locked_witness :
    verifyOtp 3 VerificationType.PHONE (some { otp := "123456", attempts := 3 })
        user1 "123456"
      = ({ success := false,
           message := "Too many failed attempts. Please request a new code" },
         none, user1) :=
  (otp_three_wrong_then_locked user1 "123456" "000000" (by decide)).2.2.2

/-! ### C7, amended -/

/-- C7 amended: a successful phone OTP verification deletes the entry
and sets phoneVerified, but leaves the status column exactly as it was
(no promotion to active). -/
theorem phone_otp_success_sets_flag_only (maxA : Nat) (e : OtpEntry)
    (u : User) (code : String) (h1 : e.attempts < maxA) (h2 : e.otp = code) :
    verifyOtp maxA VerificationType.PHONE (some e) u code
      = ({ success := true, message := "Verification successful" }, none,
         { u with phoneVerified := true }) := by
  simp [verifyOtp, updateVerificationStatus, verifyPhone, Nat.not_le.mpr h1, h2]

/-- C7 amended witness: a concrete pending user stays pending. -/
theorem phone_otp_success_sets_flag_only_witness :
    verifyOtp 3 VerificationType.PHONE (some { otp := "654321", attempts := 1 })
        pendUser "654321"
      = ({ success := true, message := "Verification successful" }, none,
         { pendUser with phoneVerified := true }) :=
  phone_otp_success_sets_flag_only 3 { otp := "654321", attempts := 1 } pendUser
    "654321" (by decide) rfl

/-! ### C10 -/

/-- Another suspended user, email not yet verified. -/
def susUser2 : User :=
  { id := "u4", email := "q@x.com", username := none, phone := none,
    password := some "hash4", status := UserStatus.SUSPENDED,
    emailVerified := false, phoneVerified := true }

/-- C10: a successful email OTP verification deletes the entry and
unconditionally writes emailVerified true together with status ACTIVE,
whatever the prior status was; in particular a suspended account comes
out active. -/
theorem email_otp_activates_regardless_of_status (maxA : Nat) (e : OtpEntry)
    (u : User) (code : String) (h1 : e.attempts < maxA) (h2 : e.otp = code) :
    verifyOtp maxA VerificationType.EMAIL (some e) u code
      = ({ success := true, message := "Verification successful" }, none,
         { u with emailVerified := true, status := UserStatus.ACTIVE }) := by
  simp [verifyOtp, updateVerificationStatus, verifyEmail, Nat.not_le.mpr h1, h2]

/-- C10 witness: a concrete suspended user is re-activated by email
verification. -/
theorem email_otp_activates_regardless_of_status_witness :
    verifyOtp 3 VerificationType.EMAIL (some { otp := "999999", attempts := 0 })
        susUser2 "999999"
      = ({ success := true, message := "Verification successful" }, none,
         { susUser2 with emailVerified := true, status := UserStatus.ACTIVE }) :=
  email_otp_activates_regardless_of_status 3 { otp := "999999", attempts := 0 }
    susUser2 "999999" (by decide) rfl

/-! ### C4, amended -/

/-- C4 amended: on a non-public operation the authentication gate allows
exactly the requests presenting a bearer token signed with the
configured secret and unexpired; issuer and audience claims are never
consulted; everything else, a missing token included, is rejected as
unauthorized. -/
theorem authGuard_accepts_iff_signed_and_unexpired (cfg : TokenConfig)
    (now : Nat) (bearer : Option Jwt) :
    (jwtAuthGuardCanActivate cfg now false bearer = AuthDecision.allow ↔
      ∃ t, bearer = some t ∧ t.sig = cfg.jwtSecret ∧ now < t.claims.exp)
    ∧ (jwtAuthGuardCanActivate cfg now false bearer = AuthDecision.unauthorized ↔
      ¬ ∃ t, bearer = some t ∧ t.sig = cfg.jwtSecret ∧ now < t.claims.exp) := by
  cases bearer with
  | none => simp [jwtAuthGuardCanActivate]
  | some t =>
    by_cases hs : t.sig = cfg.jwtSecret
    · by_cases he : t.claims.exp ≤ now
      · simp [jwtAuthGuardCanActivate, jwtStrategyOptions, jwtGuardFallbackOptions,
              jwtVerify, hs, he, Nat.not_lt.mpr he]
      · simp [jwtAuthGuardCanActivate, jwtStrategyOptions, jwtGuardFallbackOptions,
              jwtVerify, hs, he, Nat.lt_of_not_le he]
    · simp [jwtAuthGuardCanActivate, jwtStrategyOptions, jwtGuardFallbackOptions,
            jwtVerify, hs]

/-! ### C3, amended -/

/-- C3 amended: with a truthy authenticated user, the permissions gate
allows exactly when EVERY declared (resource, action) pair is matched by
some permission of some role of the user, but the roles gate allows as
soon as SOME declared role name is held (logical OR, not AND); an empty
declaration always allows. -/
theorem guards_role_any_permission_all (db : Db) (reqRoles : List String)
    (reqPerms : List RequiredPermission) (userSub : Option String) :
    (rolesGuardCanActivate db reqRoles userSub = GuardDecision.allow ↔
      reqRoles = [] ∨ (∃ sub, jsStr userSub = some sub ∧
        ∃ n, n ∈ userRoleNames db sub ∧ n ∈ reqRoles))
    ∧ (permissionsGuardCanActivate db reqPerms userSub = GuardDecision.allow ↔
      reqPerms = [] ∨ (∃ sub, jsStr userSub = some sub ∧
        ∀ rq ∈ reqPerms, ∃ p, p ∈ collectedPermissions db sub ∧
          p.resource = rq.resource ∧ p.action = rq.action)) := by
  constructor
  · by_cases hr : reqRoles = []
    · simp [rolesGuardCanActivate, hr]
    · cases hsub : jsStr userSub with
      | none =>
        simp [rolesGuardCanActivate, List.isEmpty_iff, hr, hsub]
      | some sub =>
        by_cases hany : (userRoleNames db sub).any (fun n => reqRoles.contains n)
        · simp only [List.any_eq_true, List.elem_iff] at hany
          simp [rolesGuardCanActivate, List.isEmpty_iff, hr, hsub, hany,
                List.any_eq_true]
        · simp only [List.any_eq_true, List.elem_iff] at hany
          simp [rolesGuardCanActivate, List.isEmpty_iff, hr, hsub, hany,
                List.any_eq_true]
  · by_cases hp : reqPerms = []
    · simp [permissionsGuardCanActivate, hp]
    · cases hsub : jsStr userSub with
      | none =>
        simp [permissionsGuardCanActivate, List.isEmpty_iff, hp, hsub]
      | some sub =>
        by_cases hall : reqPerms.all (fun rq =>
            (collectedPermissions db sub).any (fun p =>
              p.resource == rq.resource && p.action == rq.action))
        · simp only [List.all_eq_true, List.any_eq_true, Bool.and_eq_true,
                     beq_iff_eq] at hall
          simp [permissionsGuardCanActivate, List.isEmpty_iff, hp, hsub, hall,
                List.all_eq_true, List.any_eq_true]
        · simp only [List.all_eq_true, List.any_eq_true, Bool.and_eq_true,
                     beq_iff_eq] at hall
          simp [permissionsGuardCanActivate, List.isEmpty_iff, hp, hsub, hall,
                List.all_eq_true, List.any_eq_true]

/-! ### C5, amended -/

/-- Falsy optional strings normalise to none. -/
theorem jsStr_none_of_falsy (o : Option String) (h : jsTruthy o = false) :
    jsStr o = none := by
  cases o with
  | none => rfl
  | some s =>
    simp only [jsTruthy, Bool.not_eq_false'] at h
    simp [jsStr, h]

/-- C5 amended: a login rejected over any of the three credential causes
(no user found, no password hash stored, bcrypt mismatch) answers with
the one generic Invalid credentials message; but the status gate runs
before password validation, so any located user whose status is neither
ACTIVE nor PENDING_VERIFICATION answers Account is not active instead —
a wrong password against a suspended account is therefore
distinguishable from one against a non-existent account. -/
theorem login_credential_failures_one_message
    (bc : String → String → Bool) (db : Db) (email phone : Option String)
    (password : String) :
    (login bc db email phone password
        = LoginResult.unauthorized "Invalid credentials" ↔
      (jsTruthy email = true ∨ jsTruthy phone = true) ∧
      (match loginLookup db email phone with
       | none => True
       | some u =>
         (u.status = UserStatus.ACTIVE
           ∨ u.status = UserStatus.PENDING_VERIFICATION)
         ∧ (jsTruthy u.password = false
            ∨ bc password (u.password.getD "") = false)))
    ∧ (login bc db email phone password
        = LoginResult.unauthorized "Account is not active" ↔
      (∃ u, loginLookup db email phone = some u ∧
        ¬ (u.status = UserStatus.ACTIVE)
        ∧ ¬ (u.status = UserStatus.PENDING_VERIFICATION))) := by
  by_cases hcond : (!(jsTruthy email) && !(jsTruthy phone)) = true
  · have hev : jsTruthy email = false ∧ jsTruthy phone = false := by
      simpa using hcond
    have hl : loginLookup db email phone = none := by
      simp [loginLookup, jsStr_none_of_falsy _ hev.1, jsStr_none_of_falsy _ hev.2]
    simp [login, hcond, hl, hev.1, hev.2]
  · have hcond' : (!(jsTruthy email) && !(jsTruthy phone)) = false := by
      simpa using hcond
    have hor : jsTruthy email = true ∨ jsTruthy phone = true := by
      cases h1 : jsTruthy email with
      | true => exact Or.inl rfl
      | false =>
        cases h2 : jsTruthy phone with
        | true => exact Or.inr rfl
        | false => simp [h1, h2] at hcond'
    cases hu : loginLookup db email phone with
    | none => simp [login, hcond', hu, hor]
    | some u =>
      cases hst : u.status with
      | ACTIVE =>
        by_cases hpw : jsTruthy u.password = true
        · by_cases hbc : bc password (u.password.getD "") = true
          · simp [login, hcond', hu, hst, hpw, hbc]
          · have hbc' : bc password (u.password.getD "") = false := by
              simpa using hbc
            simp [login, hcond', hu, hst, hpw, hbc', hor]
        · have hpw' : jsTruthy u.password = false := by simpa using hpw
          simp [login, hcond', hu, hst, hpw', hor]
      | PENDING_VERIFICATION =>
        by_cases hpw : jsTruthy u.password = true
        · by_cases hbc : bc password (u.password.getD "") = true
          · simp [login, hcond', hu, hst, hpw, hbc]
          · have hbc' : bc password (u.password.getD "") = false := by
              simpa using hbc
            simp [login, hcond', hu, hst, hpw, hbc', hor]
        · have hpw' : jsTruthy u.password = false := by simpa using hpw
          simp [login, hcond', hu, hst, hpw', hor]
      | INACTIVE => simp [login, hcond', hu, hst]
      | SUSPENDED => simp [login, hcond', hu, hst]

/-! ### C9 -/

/-- After a sweep mapping every hit through a repair that no longer
hits, nothing hits any more. -/
theorem sweep_countP_zero {α : Type} (p : α → Bool) (f : α → α)
    (hp : ∀ a, p (f a) = false) (l : List α) :
    (l.map (fun a => if p a then f a else a)).countP p = 0 := by
  induction l with
  | nil => simp
  | cons a l ih =>
    by_cases ha : p a = true
    · simp [List.countP_cons, ha, hp a, ih]
    · have ha' : p a = false := by simpa using ha
      simp [List.countP_cons, ha', ih]

/-- Sweeping twice is sweeping once. -/
theorem sweep_idem {α : Type} (p : α → Bool) (f : α → α)
    (hp : ∀ a, p (f a) = false) (l : List α) :
    (l.map (fun a => if p a then f a else a)).map
        (fun a => if p a then f a else a)
      = l.map (fun a => if p a then f a else a) := by
  rw [List.map_map]
  refine List.map_congr_left (fun a _ => ?_)
  by_cases ha : p a = true
  · simp [Function.comp, ha, hp a]
  · have ha' : p a = false := by simpa using ha
    simp [Function.comp, ha']

/-- The sweep raises the count of repaired elements by exactly the
number of hits. -/
theorem sweep_countP_add {α : Type} (p q : α → Bool) (f : α → α)
    (hq1 : ∀ a, p a = true → q (f a) = true)
    (hq2 : ∀ a, p a = true → q a = false) (l : List α) :
    (l.map (fun a => if p a then f a else a)).countP q
      = l.countP q + l.countP p := by
  induction l with
  | nil => simp
  | cons a l ih =>
    by_cases ha : p a = true
    · simp [List.countP_cons, ha, hq1 a ha, hq2 a ha, ih]
      omega
    · have ha' : p a = false := by simpa using ha
      simp [List.countP_cons, ha', ih]
      omega

/-- The sweep changes nothing an observer insensitive to the repair can
see. -/
theorem sweep_map_strip {α β : Type} (p : α → Bool) (f : α → α) (g : α → β)
    (hg : ∀ a, p a = true → g (f a) = g a) (l : List α) :
    (l.map (fun a => if p a then f a else a)).map g = l.map g := by
  rw [List.map_map]
  refine List.map_congr_left (fun a _ => ?_)
  by_cases ha : p a = true
  · simp [Function.comp, ha, hg a ha]
  · have ha' : p a = false := by simpa using ha
    simp [Function.comp, ha']

/-- C9: the token sweep returns exactly the number of non-revoked
expired tokens, leaves every column other than isRevoked untouched,
raises the number of revoked records by exactly its return value, leaves
no non-revoked expired record behind, and a second run at the same
instant changes nothing and returns 0; the session sweep over isActive
behaves the same way. -/
theorem cleanup_sweeps_exact_and_idempotent (now : Nat) (db : Db) :
    ((cleanupExpiredRefreshTokens now db).1
        = db.refreshTokens.countP
            (fun t => !t.isRevoked && decide (t.expiresAt < now)))
    ∧ ((cleanupExpiredRefreshTokens now db).2.refreshTokens.map
          (fun t => { t with isRevoked := false })
        = db.refreshTokens.map (fun t => { t with isRevoked := false }))
    ∧ ((cleanupExpiredRefreshTokens now db).2.refreshTokens.countP
          (fun t => t.isRevoked)
        = db.refreshTokens.countP (fun t => t.isRevoked)
          + (cleanupExpiredRefreshTokens now db).1)
    ∧ ((cleanupExpiredRefreshTokens now db).2.refreshTokens.countP
          (fun t => !t.isRevoked && decide (t.expiresAt < now)) = 0)
    ∧ (cleanupExpiredRefreshTokens now (cleanupExpiredRefreshTokens now db).2
        = (0, (cleanupExpiredRefreshTokens now db).2))
    ∧ (cleanupExpiredSessions now (cleanupExpiredSessions now db).2
        = (0, (cleanupExpiredSessions now db).2)) := by
  have hpTok : ∀ t : RefreshToken,
      (!(RefreshToken.isRevoked { t with isRevoked := true })
        && decide (RefreshToken.expiresAt { t with isRevoked := true } < now))
        = false := fun t => rfl
  have hpSes : ∀ s : UserSession,
      (UserSession.isActive { s with isActive := false }
        && decide (UserSession.expiresAt { s with isActive := false } < now))
        = false := fun s => rfl
  have hzT := sweep_countP_zero
    (fun t : RefreshToken => !t.isRevoked && decide (t.expiresAt < now))
    (fun t : RefreshToken => { t with isRevoked := true })
    hpTok db.refreshTokens
  have hiT := sweep_idem
    (fun t : RefreshToken => !t.isRevoked && decide (t.expiresAt < now))
    (fun t : RefreshToken => { t with isRevoked := true })
    hpTok db.refreshTokens
  have hzS := sweep_countP_zero
    (fun s : UserSession => s.isActive && decide (s.expiresAt < now))
    (fun s : UserSession => { s with isActive := false })
    hpSes db.sessions
  have hiS := sweep_idem
    (fun s : UserSession => s.isActive && decide (s.expiresAt < now))
    (fun s : UserSession => { s with isActive := false })
    hpSes db.sessions
  refine ⟨?_, ?_, ?_, ?_, ?_, ?_⟩
  · simp [cleanupExpiredRefreshTokens, List.countP_eq_length_filter]
  · simp only [cleanupExpiredRefreshTokens]
    refine sweep_map_strip
      (fun t : RefreshToken => !t.isRevoked && decide (t.expiresAt < now))
      (fun t : RefreshToken => { t with isRevoked := true })
      (fun t : RefreshToken => { t with isRevoked := false })
      (fun t _ => ?_) db.refreshTokens
    rfl
  · simp only [cleanupExpiredRefreshTokens]
    rw [← List.countP_eq_length_filter]
    exact sweep_countP_add
      (fun t : RefreshToken => !t.isRevoked && decide (t.expiresAt < now))
      (fun t : RefreshToken => t.isRevoked)
      (fun t : RefreshToken => { t with isRevoked := true })
      (fun t _ => rfl)
      (fun t ht => by
        cases hrv : t.isRevoked with
        | false => exact hrv
        | true => simp [hrv] at ht)
      db.refreshTokens
  · simp only [cleanupExpiredRefreshTokens]
    exact hzT
  · simp only [cleanupExpiredRefreshTokens]
    rw [List.countP_eq_length_filter] at hzT
    rw [hiT, hzT]
  · simp only [cleanupExpiredSessions]
    rw [List.countP_eq_length_filter] at hzS
    rw [hiS, hzS]

/-! ### C8 -/

/-- Keys after a JS Map set: unchanged when the key was present, the key
appended otherwise. -/
theorem jsMapSet_keys (m : List (String × Permission)) (k : String)
    (v : Permission) :
    (jsMapSet m k v).map Prod.fst
      = if m.any (fun kv => kv.1 == k) then m.map Prod.fst
        else m.map Prod.fst ++ [k] := by
  by_cases h : m.any (fun kv => kv.1 == k) = true
  · simp only [jsMapSet, h, if_pos]
    rw [List.map_map]
    refine List.map_congr_left (fun kv _ => ?_)
    by_cases hk : (kv.1 == k) = true
    · have hke : kv.1 = k := eq_of_beq hk
      simp [Function.comp, hk, hke]
    · have hk' : (kv.1 == k) = false := Bool.eq_false_iff.mpr hk
      simp [Function.comp, hk']
  · have h' : m.any (fun kv => kv.1 == k) = false := Bool.eq_false_iff.mpr h
    simp [jsMapSet, h']

/-- A JS Map keyed by permission id stores each permission under its own
id. -/
theorem jsMapSet_snd_id (m : List (String × Permission)) (v : Permission)
    (hm : ∀ kv ∈ m, (kv.2).id = kv.1) :
    ∀ kv ∈ jsMapSet m v.id v, (kv.2).id = kv.1 := by
  intro kv hkv
  by_cases h : m.any (fun kv => kv.1 == v.id) = true
  · simp only [jsMapSet, h, if_pos, List.mem_map] at hkv
    obtain ⟨kv0, hkv0, hmap⟩ := hkv
    by_cases hk : kv0.1 == v.id
    · simp only [hk, if_pos] at hmap
      rw [← hmap]
    · simp only [hk, if_neg] at hmap
      rw [← hmap]
      exact hm kv0 hkv0
  · have h' : m.any (fun kv => kv.1 == v.id) = false := Bool.eq_false_iff.mpr h
    simp only [jsMapSet, h', Bool.false_eq_true, if_false, List.mem_append,
               List.mem_singleton] at hkv
    rcases hkv with hkv | hkv
    · exact hm kv hkv
    · rw [hkv]

/-- Folding permissions into the JS Map preserves distinctness of the
keys. -/
theorem permFold_keys_nodup (ps : List Permission) :
    ∀ m : List (String × Permission), (m.map Prod.fst).Nodup →
      ((ps.foldl (fun m p => jsMapSet m p.id p) m).map Prod.fst).Nodup := by
  induction ps with
  | nil => intro m hm; simpa using hm
  | cons p ps ih =>
    intro m hm
    refine ih (jsMapSet m p.id p) ?_
    rw [jsMapSet_keys]
    by_cases h : m.any (fun kv => kv.1 == p.id) = true
    · simpa [h] using hm
    · have h' : m.any (fun kv => kv.1 == p.id) = false := Bool.eq_false_iff.mpr h
      have hnot : ¬ p.id ∈ m.map Prod.fst := by
        simp only [List.any_eq_false] at h'
        simp only [List.mem_map]
        rintro ⟨kv, hkv, hfst⟩
        have := h' kv hkv
        simp [hfst] at this
      simp [h', List.nodup_append, hm, hnot]

/-- Membership among the JS Map keys after the fold: a key that was
there already, or the id of one of the folded permissions. -/
theorem permFold_mem_keys (ps : List Permission) :
    ∀ (m : List (String × Permission)) (pid : String),
      (pid ∈ (ps.foldl (fun m p => jsMapSet m p.id p) m).map Prod.fst
        ↔ pid ∈ m.map Prod.fst ∨ pid ∈ ps.map Permission.id) := by
  induction ps with
  | nil => intro m pid; simp
  | cons p ps ih =>
    intro m pid
    rw [List.foldl_cons, ih (jsMapSet m p.id p) pid, jsMapSet_keys]
    by_cases h : m.any (fun kv => kv.1 == p.id) = true
    · have hpmem : p.id ∈ m.map Prod.fst := by
        simp only [List.any_eq_true] at h
        obtain ⟨kv, hkv, hbeq⟩ := h
        exact List.mem_map.mpr ⟨kv, hkv, eq_of_beq hbeq⟩
      simp only [h, if_pos, List.map_cons, List.mem_cons]
      constructor
      · rintro (hm | hp)
        · exact Or.inl hm
        · exact Or.inr (Or.inr hp)
      · rintro (hm | hp | hp)
        · exact Or.inl hm
        · exact Or.inl (hp ▸ hpmem)
        · exact Or.inr hp
    · have h' : m.any (fun kv => kv.1 == p.id) = false := Bool.eq_false_iff.mpr h
      simp only [h', Bool.false_eq_true, if_false, List.mem_append,
                 List.mem_singleton, List.map_cons, List.mem_cons]
      tauto

/-- The fold keeps the stored-under-own-id invariant. -/
theorem permFold_snd_id (ps : List Permission) :
    ∀ m : List (String × Permission), (∀ kv ∈ m, (kv.2).id = kv.1) →
      ∀ kv ∈ ps.foldl (fun m p => jsMapSet m p.id p) m, (kv.2).id = kv.1 := by
  induction ps with
  | nil => intro m hm; simpa using hm
  | cons p ps ih =>
    intro m hm
    exact ih (jsMapSet m p.id p) (jsMapSet_snd_id m p hm)

/-- C8: getUserPermissions returns no two entries with the same
permission id, and an id appears among the returned permissions exactly
when some role of the user carries a permission with that id — so a
permission shared by two roles of the user comes back exactly once. -/
theorem getUserPermissions_no_duplicate_identity (db : Db) (userId : String) :
    ((getUserPermissions db userId).map Permission.id).Nodup
    ∧ ∀ pid, (pid ∈ (getUserPermissions db userId).map Permission.id
        ↔ pid ∈ (collectedPermissions db userId).map Permission.id) := by
  have hids : (getUserPermissions db userId).map Permission.id
      = ((collectedPermissions db userId).foldl
          (fun m p => jsMapSet m p.id p) []).map Prod.fst := by
    simp only [getUserPermissions, List.map_map]
    exact List.map_congr_left (fun kv hkv =>
      permFold_snd_id (collectedPermissions db userId) [] (by simp) kv hkv)
  constructor
  · rw [hids]
    exact permFold_keys_nodup (collectedPermissions db userId) [] (by simp)
  · intro pid
    rw [hids]
    simpa using permFold_mem_keys (collectedPermissions db userId) [] pid

end Lanson
